import Mathlib

/-!
Verification development for the twn-api-upload mirror tool.

The repository has two source files:
* `src/telebox/__init__.py` — the Telebox remote-storage client
  (classes `Search`, `Upload`, `Folder`);
* `src/app/teleboximp.py` — the mirror driver (`TeleboxImpl` with
  methods `create_folder_if_not_exists`, `doit`, `main`).

The development shallowly embeds both layers:
* client operations that are pure functions of the HTTP response they
  received are embedded as Lean functions over response records
  (`upload_file`, `Folder.create`);
* the remote service itself is external to the repository, so its state
  is modelled from the spec (section 6, "Remote API contract") as a list
  of `{id, name, type, pid}` entries plus a fresh-id counter; the search
  endpoint returns the first page (50 entries) of the filtered listing,
  and the folder-create endpoint appends a fresh directory entry;
* the local filesystem is an environment of `listdir / isfile / isdir`
  functions over path strings, exactly the calls the driver makes;
* the driver (`main` / `doit`) is embedded as a fuel-indexed function
  producing a trace of remote events (`search`, `create`, `upload`), a
  fatal-exit message (`sys.exit` is modelled as an `Option String`), the
  final remote state and the final argument record.  Python's mutable
  `arguments` object is modelled by threading the record through the
  computation and returning its final value, so aliasing effects of the
  recursive call are observable.
-/

namespace TwnUpload

/-- Remote listing entry, the `{id, name, type, pid}` shape returned by the
search endpoint (`lot['data']['list']` items in `src/telebox/__init__.py`). -/
structure Entry where
  id : Int
  name : String
  typ : String
  pid : Int
deriving DecidableEq, Repr

/-- Modelled from the spec (section 6): the remote service's state, an ordered
listing of entries plus the next id the server will assign on a create call.
The repository itself never sees this state, only the responses derived from
it below. -/
structure Remote where
  entries : List Entry
  nextId : Int
deriving DecidableEq, Repr

/-- Modelled from the spec (section 4.1): which entries the server-side search
for `filename` under `folder_id` matches.  An empty `filename` (as used by
`main` to fetch `folder_data`) matches every entry of the parent. -/
def matchesQuery (filename : String) (folder_id : Int) (e : Entry) : Bool :=
  e.pid == folder_id && (filename == "" || e.name == filename)

/-- Query parameters of `Search.search` in `src/telebox/__init__.py`:
`{'pid': folder_id, 'name': filename, 'pageNo': 1, 'pageSize': 50}`. -/
structure SearchParams where
  pid : Int
  name : String
  pageNo : Nat
  pageSize : Nat
deriving DecidableEq, Repr

/-- The request `Search.search` issues (it always fixes `pageNo := 1` and
`pageSize := 50`). -/
def searchRequest (filename : String) (folder_id : Int) : SearchParams :=
  ⟨folder_id, filename, 1, 50⟩

/-- Modelled from the spec (section 4.1, `listFolder`): the list the server
returns for one `Search.search` call — the filtered listing cut to the single
requested page of 50 entries; no further page is ever fetched. -/
def searchList (st : Remote) (filename : String) (folder_id : Int) : List Entry :=
  (st.entries.filter (matchesQuery filename folder_id)).take 50

/-- Embedding of `Search.folder_exists`: inspects only the head of the
returned list and yields its id when that head is a `dir` entry whose `pid`
equals `folder_id`; Python's `False` return is `none` here. -/
def folder_exists (st : Remote) (filename : String) (folder_id : Int) : Option Int :=
  match searchList st filename folder_id with
  | [] => none
  | e :: _ => if e.typ == "dir" && e.pid == folder_id then some e.id else none

/-- Modelled from the spec (section 6, folder create): the server assigns the
next fresh id, appends the new directory entry to the listing, and the call
returns that id (the `data.dirId` of a status-1 response). -/
def folderCreateRemote (st : Remote) (filename : String) (pid : Int) : Int × Remote :=
  (st.nextId, ⟨st.entries ++ [⟨st.nextId, filename, "dir", pid⟩], st.nextId + 1⟩)

/-- Remote events the driver causes, in the order it causes them: a search
(listing) query, a folder-create call, a file upload. -/
inductive Event where
  | search (name : String) (pid : Int)
  | create (name : String) (pid : Int)
  | upload (path : String) (pid : Int)
deriving DecidableEq, Repr

/-- Embedding of `TeleboxImpl.create_folder_if_not_exists`: one search via
`folder_exists`; a create call exactly when the search result is falsy in
Python (`False`, i.e. `none`, or the integer `0`).  Returns the resulting id,
the new remote state and the events performed. -/
def create_folder_if_not_exists (st : Remote) (foldername : String) (folder_id : Int) :
    Int × Remote × List Event :=
  match folder_exists st foldername folder_id with
  | some p =>
      if p == 0 then
        let c := folderCreateRemote st foldername folder_id
        (c.1, c.2, [Event.search foldername folder_id, Event.create foldername folder_id])
      else
        (p, st, [Event.search foldername folder_id])
  | none =>
      let c := folderCreateRemote st foldername folder_id
      (c.1, c.2, [Event.search foldername folder_id, Event.create foldername folder_id])

/-- Response of the upload-prepare endpoint as `Upload.upload_file` reads it:
a `status` and the signed upload URL. -/
structure PrepareResp where
  status : Int
  signUrl : String
deriving DecidableEq, Repr

/-- Response of the upload-finish endpoint: a `status` and the new item id. -/
structure FinishResp where
  status : Int
  itemId : Int
deriving DecidableEq, Repr

/-- The two phases `Upload.upload_file` may perform after prepare: the PUT of
the file bytes to the signed URL, and the finish call. -/
inductive UpPhase where
  | transfer
  | finalize
deriving DecidableEq, Repr

/-- Embedding of `Upload.upload_file` as a function of the prepare and finish
responses: status 600 short-circuits returning `1`; a prepare status other
than 1 is a fatal `sys.exit`; otherwise the transfer and finalize phases run
and a non-1 finish status is fatal.  The second component lists the phases
actually performed. -/
def upload_file (prep : PrepareResp) (fin : FinishResp) :
    Except String Int × List UpPhase :=
  if prep.status == 600 then
    (Except.ok 1, [])
  else if prep.status != 1 then
    (Except.error "Prepare: Execution stopped. Cannot upload files", [])
  else if fin.status != 1 then
    (Except.error "Finish Upload: Execution stopped. Cannot upload files",
      [UpPhase.transfer, UpPhase.finalize])
  else
    (Except.ok fin.itemId, [UpPhase.transfer, UpPhase.finalize])

/-- Response of the folder-create endpoint as `Folder.create` reads it. -/
structure CreateResp where
  status : Int
  dirId : Int
deriving DecidableEq, Repr

/-- Embedding of `Folder.create` as a function of the response: a status
other than 1 is a fatal `sys.exit`, otherwise the call returns `data.dirId`. -/
def Folder.create (resp : CreateResp) : Except String Int :=
  if resp.status != 1 then
    Except.error "Execution stopped. Cannot create folders"
  else
    Except.ok resp.dirId

/-- Local-filesystem environment: the three `os` calls the driver performs,
as functions of the path strings the driver builds, plus the configured base
folder id.  The field `baseFolderCfg` is modelled from the spec (section 6):
`Config.TELEBOX_BASEFOLDER`, the default remote root, lives in the missing
`config.py`. -/
structure Env where
  listdir : String → List String
  isfile : String → Bool
  isdir : String → Bool
  baseFolderCfg : Int

/-- The driver's argument record: `arguments.dir`, `arguments.foldername`,
`arguments.basefolder` (`none` when the CLI option was absent). -/
structure Args where
  dir : String
  foldername : String
  basefolder : Option Int
deriving DecidableEq, Repr

/-- Embedding of `int(arguments.basefolder or Config.TELEBOX_BASEFOLDER)`:
Python's `or` falls back to the configured default when `basefolder` is
absent or the falsy integer `0`. -/
def folderPidOf (env : Env) (args : Args) : Int :=
  match args.basefolder with
  | some b => if b == 0 then env.baseFolderCfg else b
  | none => env.baseFolderCfg

/-- Embedding of `TeleboxImpl.doit`: walks `file_list`, submits an upload to
the worker pool for every name that is a file, and records whether any name
is a directory.  The `with ThreadPoolExecutor` block joins all submitted
uploads before `doit` returns, so the returned event list holds every upload
of the batch; submission order (the list order) is the deterministic part,
per spec section 5. -/
def doit (env : Env) (file_list : List String) (directory : String) (folder_pid : Int) :
    List Event × Bool :=
  match file_list with
  | [] => ([], false)
  | f :: fs =>
      let rest := doit env fs directory folder_pid
      let here :=
        if env.isfile (directory ++ "/" ++ f) then
          [Event.upload (directory ++ "/" ++ f) folder_pid]
        else []
      (here ++ rest.1, env.isdir (directory ++ "/" ++ f) || rest.2)

/-- Result of one driver run: the remote events in order, the fatal
`sys.exit` message if one occurred, the final remote state, and the final
value of the (mutated, aliased) argument record. -/
structure RunResult where
  events : List Event
  fatal : Option String
  remote : Remote
  args : Args
deriving DecidableEq, Repr

/-- The loop-invariant locals of `TeleboxImpl.main`: `currentDir`,
`currentName`, `folder_pid` and the cached listing `folder_data`, all
captured before the subdirectory loop and never touched by it. -/
structure LoopCtx where
  currentDir : String
  currentName : String
  folder_pid : Int
  folder_data : List Entry
deriving Repr

/-- Embedding of the `subfolder` computation in `main`:
`list(filter(lambda d: d['name'] == directory, folder_data))` when
`folder_data` is truthy, else Python's `None`; `None` and the empty list are
both falsy at the `if not subfolder` test and `subfolder[0]` is only read
when the result is non-empty, so `None` is collapsed to `[]`. -/
def subfolderOf (folder_data : List Entry) (d : String) : List Entry :=
  if folder_data.isEmpty then [] else folder_data.filter (fun e => e.name == d)

/-- The tail of one iteration of `main`'s subdirectory loop, after
`subfolder_pid` has been resolved: list the local subdirectory, upload its
files through the pool (`doit`), and when a nested directory was seen,
overwrite the argument record's three fields and recurse (`go` is the
recursive `main`); the recursion's returned record is what the caller keeps
using.  `evs` are the resolution events that preceded this point. -/
def afterResolve (env : Env) (go : Args → Remote → RunResult) (ctx : LoopCtx)
    (st : Remote) (args : Args) (d : String) (subfolder_pid : Int)
    (evs : List Event) : RunResult :=
  let path := ctx.currentDir ++ "/" ++ ctx.currentName ++ "/" ++ d
  let dres := doit env (env.listdir path) path subfolder_pid
  if dres.2 then
    let args2 : Args := ⟨ctx.currentDir ++ "/" ++ ctx.currentName, d, some subfolder_pid⟩
    let r := go args2 st
    ⟨evs ++ dres.1 ++ r.events, r.fatal, r.remote, r.args⟩
  else
    ⟨evs ++ dres.1, none, st, args⟩

/-- One iteration of `main`'s subdirectory loop for directory `d`: reuse the
first name-matching entry of the cached listing if there is one (no type
check in the source); otherwise resolve-or-create, exiting fatally when the
resolved id is the sentinel `-1`. -/
def dirStep (env : Env) (go : Args → Remote → RunResult) (ctx : LoopCtx)
    (st : Remote) (args : Args) (d : String) : RunResult :=
  match subfolderOf ctx.folder_data d with
  | e :: _ => afterResolve env go ctx st args d e.id []
  | [] =>
      let c := create_folder_if_not_exists st d ctx.folder_pid
      if c.1 == -1 then
        ⟨c.2.2, some "Execution stopped. Folder not created", c.2.1, args⟩
      else
        afterResolve env go ctx c.2.1 args d c.1 c.2.2

/-- The subdirectory loop of `main`: iterate `dirStep` over the local
subdirectory names, threading the remote state and the (aliased) argument
record; a fatal exit stops the loop immediately. -/
def processDirs (env : Env) (go : Args → Remote → RunResult) (ctx : LoopCtx)
    (st : Remote) (args : Args) : List String → RunResult
  | [] => ⟨[], none, st, args⟩
  | d :: ds =>
      let r := dirStep env go ctx st args d
      match r.fatal with
      | some msg => ⟨r.events, some msg, r.remote, r.args⟩
      | none =>
          let rest := processDirs env go ctx r.remote r.args ds
          ⟨r.events ++ rest.events, rest.fatal, rest.remote, rest.args⟩

/-- Embedding of `TeleboxImpl.main`, indexed by recursion fuel (the Python
recursion has no termination argument; every concrete run below uses enough
fuel).  In order: compute `folder_pid`, fetch `folder_data` with an
empty-name search, flush loose root files through `doit` unless
`foldername == "upload"` (the flush's return value is discarded in the
source), enumerate the subdirectories of `dir ++ "/" ++ foldername`, and run
the loop. -/
def main (env : Env) : Nat → Args → Remote → RunResult
  | 0, args, st => ⟨[], some "recursion fuel exhausted", st, args⟩
  | n + 1, args, st =>
      let folder_pid := folderPidOf env args
      let folder_data := searchList st "" folder_pid
      let flushEvs :=
        if args.foldername != "upload" then
          (doit env (env.listdir args.dir) args.dir folder_pid).1
        else []
      let dirs := (env.listdir (args.dir ++ "/" ++ args.foldername)).filter
        (fun d => env.isdir (args.dir ++ "/" ++ args.foldername ++ "/" ++ d))
      let ctx : LoopCtx := ⟨args.dir, args.foldername, folder_pid, folder_data⟩
      let loop := processDirs env (fun a s => main env n a s) ctx st args dirs
      ⟨Event.search "" folder_pid :: (flushEvs ++ loop.events),
        loop.fatal, loop.remote, loop.args⟩

/-! ### Helper lemmas -/

/-- The `subfolder` computation is the plain name filter: filtering the empty
cached listing also yields the empty list. -/
lemma subfolderOf_eq_filter (folder_data : List Entry) (d : String) :
    subfolderOf folder_data d = folder_data.filter (fun e => e.name == d) := by
  cases folder_data <;> simp [subfolderOf]

/-- Every file of a batch yields its upload event in the batch `doit`
performs. -/
lemma doit_upload_mem (env : Env) (files : List String) (directory : String)
    (pid : Int) (f : String) (hf : f ∈ files)
    (hisf : env.isfile (directory ++ "/" ++ f) = true) :
    Event.upload (directory ++ "/" ++ f) pid ∈ (doit env files directory pid).1 := by
  induction files with
  | nil => cases hf
  | cons a as ih =>
      rcases List.mem_cons.mp hf with h | h
      · subst h
        simp [doit, hisf]
      · simp only [doit, List.mem_append]
        exact Or.inr (ih h)

/-- Whatever `doit` uploaded for a directory is among the events of the
remainder of that directory's loop iteration. -/
lemma afterResolve_upload_mem (env : Env) (go : Args → Remote → RunResult)
    (ctx : LoopCtx) (st : Remote) (args : Args) (d : String) (pid : Int)
    (evs : List Event) (x : Event)
    (hx : x ∈ (doit env
        (env.listdir (ctx.currentDir ++ "/" ++ ctx.currentName ++ "/" ++ d))
        (ctx.currentDir ++ "/" ++ ctx.currentName ++ "/" ++ d) pid).1) :
    x ∈ (afterResolve env go ctx st args d pid evs).events := by
  simp only [afterResolve]
  split <;> simp [hx]

/-- The resolution events preceding a directory's batch are among the events
of that loop iteration. -/
lemma afterResolve_evs_mem (env : Env) (go : Args → Remote → RunResult)
    (ctx : LoopCtx) (st : Remote) (args : Args) (d : String) (pid : Int)
    (evs : List Event) (x : Event) (hx : x ∈ evs) :
    x ∈ (afterResolve env go ctx st args d pid evs).events := by
  simp only [afterResolve]
  split <;> simp [hx]

/-- Resolve-or-create always performs its search (it is the first event it
causes). -/
lemma create_folder_search_mem (st : Remote) (name : String) (pid : Int) :
    Event.search name pid ∈ (create_folder_if_not_exists st name pid).2.2 := by
  unfold create_folder_if_not_exists
  cases folder_exists st name pid with
  | none => simp
  | some p => by_cases hp : p = 0 <;> simp [hp]

/-- Resolve-or-create performs no upload: its events are search and create
calls only. -/
lemma create_folder_no_upload (st : Remote) (name : String) (pid : Int)
    (p : String) (q : Int) :
    Event.upload p q ∉ (create_folder_if_not_exists st name pid).2.2 := by
  unfold create_folder_if_not_exists
  cases folder_exists st name pid with
  | none => simp
  | some v => by_cases hv : v = 0 <;> simp [hv]

/-- Unfolding of the subdirectory loop at a non-fatal head iteration: the
trace is the head iteration's events followed by the remaining iterations'
events, computed from the state and argument record the head iteration
left behind. -/
lemma processDirs_cons_of_ok (env : Env) (go : Args → Remote → RunResult)
    (ctx : LoopCtx) (st : Remote) (args : Args) (d : String) (ds : List String)
    (h : (dirStep env go ctx st args d).fatal = none) :
    processDirs env go ctx st args (d :: ds) =
      ⟨(dirStep env go ctx st args d).events ++
          (processDirs env go ctx (dirStep env go ctx st args d).remote
            (dirStep env go ctx st args d).args ds).events,
        (processDirs env go ctx (dirStep env go ctx st args d).remote
          (dirStep env go ctx st args d).args ds).fatal,
        (processDirs env go ctx (dirStep env go ctx st args d).remote
          (dirStep env go ctx st args d).args ds).remote,
        (processDirs env go ctx (dirStep env go ctx st args d).remote
          (dirStep env go ctx st args d).args ds).args⟩ := by
  simp only [processDirs, h]

/-- A non-fatal loop iteration contains an upload event for every file of
its directory's local listing. -/
lemma dirStep_upload_mem (env : Env) (go : Args → Remote → RunResult)
    (ctx : LoopCtx) (st : Remote) (args : Args) (d : String) (f : String)
    (hfat : (dirStep env go ctx st args d).fatal = none)
    (hf : f ∈ env.listdir (ctx.currentDir ++ "/" ++ ctx.currentName ++ "/" ++ d))
    (hisf : env.isfile
        (ctx.currentDir ++ "/" ++ ctx.currentName ++ "/" ++ d ++ "/" ++ f) = true) :
    ∃ pid,
      Event.upload (ctx.currentDir ++ "/" ++ ctx.currentName ++ "/" ++ d ++ "/" ++ f) pid
        ∈ (dirStep env go ctx st args d).events := by
  cases hsub : subfolderOf ctx.folder_data d with
  | cons e rest =>
      refine ⟨e.id, ?_⟩
      simp only [dirStep, hsub]
      exact afterResolve_upload_mem env go ctx st args d e.id [] _
        (doit_upload_mem env _ _ _ f hf hisf)
  | nil =>
      simp only [dirStep, hsub] at hfat ⊢
      split at hfat
      · simp at hfat
      · next hc =>
          rw [if_neg hc]
          refine ⟨(create_folder_if_not_exists st d ctx.folder_pid).1, ?_⟩
          exact afterResolve_upload_mem env go ctx _ args d _ _ _
            (doit_upload_mem env _ _ _ f hf hisf)

/-! ### Claim theorems -/

/-- C4: for every file upload, a prepare status of 600 makes `upload_file`
return the success sentinel 1 with neither the transfer nor the finalize
phase performed; a prepare status that is neither 1 nor 600 terminates
fatally; and the transfer/finalize phases are performed only when the
prepare status is 1. -/
theorem claim_C4_upload_prepare_gate (prep : PrepareResp) (fin : FinishResp) :
    (prep.status = 600 → upload_file prep fin = (Except.ok 1, [])) ∧
    (prep.status ≠ 1 → prep.status ≠ 600 →
      upload_file prep fin =
        (Except.error "Prepare: Execution stopped. Cannot upload files", [])) ∧
    ((upload_file prep fin).2 ≠ [] → prep.status = 1) := by
  refine ⟨?_, ?_, ?_⟩
  · intro h
    simp [upload_file, h]
  · intro h1 h600
    simp [upload_file, h1, h600]
  · intro hph
    by_contra h1
    by_cases h600 : prep.status = 600 <;> simp [upload_file, h1, h600] at hph

/-- Witness for C4: with prepare status 600 the call short-circuits to
`(ok 1, no phases)`, and with prepare status 2 it fails fatally with no
phases performed. -/
theorem claim_C4_upload_prepare_gate_witness :
    upload_file ⟨600, "u"⟩ ⟨1, 7⟩ = (Except.ok 1, []) ∧
    upload_file ⟨2, "u"⟩ ⟨1, 7⟩ =
      (Except.error "Prepare: Execution stopped. Cannot upload files", []) :=
  ⟨(claim_C4_upload_prepare_gate ⟨600, "u"⟩ ⟨1, 7⟩).1 rfl,
    (claim_C4_upload_prepare_gate ⟨2, "u"⟩ ⟨1, 7⟩).2.1 (by decide) (by decide)⟩

/-- C9: every remote listing is one query with page number fixed to 1 and
page size fixed to 50; the returned listing is the filtered entries cut to
the first 50, so entries beyond the first 50 of a folder are never seen. -/
theorem claim_C9_fixed_single_page (filename : String) (folder_id : Int)
    (st : Remote) :
    searchRequest filename folder_id =
      { pid := folder_id, name := filename, pageNo := 1, pageSize := 50 } ∧
    searchList st filename folder_id =
      (st.entries.filter (matchesQuery filename folder_id)).take 50 ∧
    (searchList st filename folder_id).length ≤ 50 := by
  refine ⟨rfl, rfl, ?_⟩
  simp only [searchList]
  exact List.length_take_le 50 _

/-- C2 counterexample: the listing of parent 0 filtered by name "a" contains
the directory-type entry `{id := 8, name := "a", typ := "dir", pid := 0}`,
yet `create_folder_if_not_exists` issues a create call and returns the fresh
id 100 instead of 8, because only the head of the listing (here a file named
"a") is inspected.  This refutes the claim that an existing matching
directory entry is returned whenever one is present and that a create is
issued only when none is found. -/
theorem claim_C2_counterexample :
    (⟨8, "a", "dir", 0⟩ : Entry) ∈
      searchList ⟨[⟨7, "a", "file", 0⟩, ⟨8, "a", "dir", 0⟩], 100⟩ "a" 0 ∧
    (create_folder_if_not_exists
      ⟨[⟨7, "a", "file", 0⟩, ⟨8, "a", "dir", 0⟩], 100⟩ "a" 0).1 = 100 ∧
    Event.create "a" 0 ∈
      (create_folder_if_not_exists
        ⟨[⟨7, "a", "file", 0⟩, ⟨8, "a", "dir", 0⟩], 100⟩ "a" 0).2.2 := by
  refine ⟨?_, rfl, ?_⟩ <;> decide

/-- C2 amended: resolve-or-create inspects only the first entry of the
filtered listing.  It returns that entry's id, without a create call, exactly
when the first entry is a directory-type entry whose parent equals the query
parent and whose id is nonzero (Python truthiness); in every other case —
empty listing, a first entry that is not a directory with the queried parent
(even when a matching directory occurs later in the listing), or a first
entry that is such a directory but has the falsy id 0 — it issues a create
call. -/
theorem claim_C2_amended (st : Remote) (name : String) (pid : Int) :
    (∀ e rest, searchList st name pid = e :: rest → e.typ = "dir" → e.pid = pid →
      e.id ≠ 0 →
      create_folder_if_not_exists st name pid = (e.id, st, [Event.search name pid])) ∧
    (∀ e rest, searchList st name pid = e :: rest → e.typ ≠ "dir" ∨ e.pid ≠ pid →
      Event.create name pid ∈ (create_folder_if_not_exists st name pid).2.2) ∧
    (searchList st name pid = [] →
      Event.create name pid ∈ (create_folder_if_not_exists st name pid).2.2) ∧
    (∀ e rest, searchList st name pid = e :: rest → e.typ = "dir" → e.pid = pid →
      e.id = 0 →
      Event.create name pid ∈ (create_folder_if_not_exists st name pid).2.2) := by
  refine ⟨?_, ?_, ?_, ?_⟩
  · intro e rest hlist htyp hpid hid
    simp [create_folder_if_not_exists, folder_exists, hlist, htyp, hpid, hid]
  · intro e rest hlist hbad
    have hfe : folder_exists st name pid = none := by
      simp only [folder_exists, hlist]
      rcases hbad with hb | hb <;> simp [hb]
    simp [create_folder_if_not_exists, hfe]
  · intro hlist
    have hfe : folder_exists st name pid = none := by
      simp [folder_exists, hlist]
    simp [create_folder_if_not_exists, hfe]
  · intro e rest hlist htyp hpid hid
    have hfe : folder_exists st name pid = some 0 := by
      simp [folder_exists, hlist, htyp, hpid, hid]
    simp [create_folder_if_not_exists, hfe]

/-- Witness for C2 amended: a listing headed by a matching directory entry
with nonzero id is reused without a create call; a listing headed by a file
entry named alike leads to a create call; and a listing headed by a matching
directory entry whose id is the falsy 0 also leads to a create call. -/
theorem claim_C2_amended_witness :
    create_folder_if_not_exists ⟨[⟨8, "a", "dir", 0⟩], 100⟩ "a" 0 =
      (8, ⟨[⟨8, "a", "dir", 0⟩], 100⟩, [Event.search "a" 0]) ∧
    Event.create "a" 0 ∈
      (create_folder_if_not_exists ⟨[⟨7, "a", "file", 0⟩], 100⟩ "a" 0).2.2 ∧
    Event.create "a" 0 ∈
      (create_folder_if_not_exists ⟨[⟨0, "a", "dir", 0⟩], 100⟩ "a" 0).2.2 :=
  ⟨(claim_C2_amended ⟨[⟨8, "a", "dir", 0⟩], 100⟩ "a" 0).1 ⟨8, "a", "dir", 0⟩ []
      (by decide) rfl rfl (by decide),
    (claim_C2_amended ⟨[⟨7, "a", "file", 0⟩], 100⟩ "a" 0).2.1 ⟨7, "a", "file", 0⟩ []
      (by decide) (Or.inl (by decide)),
    (claim_C2_amended ⟨[⟨0, "a", "dir", 0⟩], 100⟩ "a" 0).2.2.2 ⟨0, "a", "dir", 0⟩ []
      (by decide) rfl rfl rfl⟩

/-- C3 counterexample: with remote listing `[{id := 7, name := "a",
typ := "file", pid := 0}]` and next fresh id 100, the first
resolve-or-create for ("a", 0) creates and returns 100; the second call,
with no intervening mutation besides the first call's own create, creates
again and returns 101 — the ids differ and the second call performs a create
operation, refuting the claim. -/
theorem claim_C3_counterexample :
    (create_folder_if_not_exists ⟨[⟨7, "a", "file", 0⟩], 100⟩ "a" 0).1 = 100 ∧
    (create_folder_if_not_exists
      (create_folder_if_not_exists ⟨[⟨7, "a", "file", 0⟩], 100⟩ "a" 0).2.1 "a" 0).1 = 101 ∧
    Event.create "a" 0 ∈
      (create_folder_if_not_exists
        (create_folder_if_not_exists ⟨[⟨7, "a", "file", 0⟩], 100⟩ "a" 0).2.1 "a" 0).2.2 := by
  refine ⟨rfl, rfl, ?_⟩
  decide

/-- C3 amended: double resolve-or-create is idempotent — same id, no second
create — provided the filtered first-page listing for (name, parentId) is
either empty or headed by a directory-type entry with matching parent and
nonzero id, and the server assigns a nonzero id on create.  (The
counterexample shows it fails when a file with the queried name heads the
listing.) -/
theorem claim_C3_amended (st : Remote) (name : String) (pid : Int)
    (hid : st.nextId ≠ 0)
    (h : searchList st name pid = [] ∨
      ∃ e rest, searchList st name pid = e :: rest ∧ e.typ = "dir" ∧ e.pid = pid ∧
        e.id ≠ 0) :
    (create_folder_if_not_exists
        (create_folder_if_not_exists st name pid).2.1 name pid).1 =
      (create_folder_if_not_exists st name pid).1 ∧
    Event.create name pid ∉
      (create_folder_if_not_exists
        (create_folder_if_not_exists st name pid).2.1 name pid).2.2 := by
  rcases h with hempty | ⟨e, rest, hlist, htyp, hpid, hide⟩
  · have hfilter : st.entries.filter (matchesQuery name pid) = [] := by
      have := hempty
      simp only [searchList, List.take_eq_nil_iff] at this
      rcases this with h50 | hf
      · exact absurd h50 (by norm_num)
      · exact hf
    have hfe : folder_exists st name pid = none := by
      simp [folder_exists, hempty]
    have hr1 : create_folder_if_not_exists st name pid =
        (st.nextId, ⟨st.entries ++ [⟨st.nextId, name, "dir", pid⟩], st.nextId + 1⟩,
          [Event.search name pid, Event.create name pid]) := by
      simp [create_folder_if_not_exists, hfe, folderCreateRemote]
    have hmatch : matchesQuery name pid ⟨st.nextId, name, "dir", pid⟩ = true := by
      simp [matchesQuery]
    have hlist2 : searchList
        ⟨st.entries ++ [⟨st.nextId, name, "dir", pid⟩], st.nextId + 1⟩ name pid =
        [⟨st.nextId, name, "dir", pid⟩] := by
      simp [searchList, List.filter_append, hfilter, hmatch]
    have hfe2 : folder_exists
        ⟨st.entries ++ [⟨st.nextId, name, "dir", pid⟩], st.nextId + 1⟩ name pid =
        some st.nextId := by
      simp [folder_exists, hlist2]
    constructor
    · rw [hr1]
      simp [create_folder_if_not_exists, hfe2, hid]
    · rw [hr1]
      simp [create_folder_if_not_exists, hfe2, hid]
  · have hfe : folder_exists st name pid = some e.id := by
      simp [folder_exists, hlist, htyp, hpid]
    have hr1 : create_folder_if_not_exists st name pid =
        (e.id, st, [Event.search name pid]) := by
      simp [create_folder_if_not_exists, hfe, hide]
    rw [hr1]
    simp [create_folder_if_not_exists, hfe, hide]

/-- Witness for C3 amended: on an empty remote listing with next fresh id 5,
both calls agree on id 5 and the second performs no create. -/
theorem claim_C3_amended_witness :
    (create_folder_if_not_exists
        (create_folder_if_not_exists ⟨[], 5⟩ "a" 0).2.1 "a" 0).1 =
      (create_folder_if_not_exists ⟨[], 5⟩ "a" 0).1 ∧
    Event.create "a" 0 ∉
      (create_folder_if_not_exists
        (create_folder_if_not_exists ⟨[], 5⟩ "a" 0).2.1 "a" 0).2.2 :=
  claim_C3_amended ⟨[], 5⟩ "a" 0 (by decide) (Or.inl rfl)

/-- C5: in the embedding the `with ThreadPoolExecutor` block of `doit` joins
every submitted upload before returning, so one loop iteration's events are
a contiguous block containing an upload for every file of its directory, and
the whole block precedes every event of the following iterations — in
particular the next subdirectory's resolution (search/create) and any
recursion into children of later directories.  Upload completion is a
synchronization barrier between tree levels. -/
theorem claim_C5_upload_barrier (env : Env) (go : Args → Remote → RunResult)
    (ctx : LoopCtx) (st : Remote) (args : Args) (d : String) (ds : List String)
    (hfat : (dirStep env go ctx st args d).fatal = none) :
    (processDirs env go ctx st args (d :: ds)).events =
      (dirStep env go ctx st args d).events ++
        (processDirs env go ctx (dirStep env go ctx st args d).remote
          (dirStep env go ctx st args d).args ds).events ∧
    (∀ f ∈ env.listdir (ctx.currentDir ++ "/" ++ ctx.currentName ++ "/" ++ d),
      env.isfile
          (ctx.currentDir ++ "/" ++ ctx.currentName ++ "/" ++ d ++ "/" ++ f) = true →
      ∃ pid,
        Event.upload
            (ctx.currentDir ++ "/" ++ ctx.currentName ++ "/" ++ d ++ "/" ++ f) pid
          ∈ (dirStep env go ctx st args d).events) := by
  constructor
  · rw [processDirs_cons_of_ok env go ctx st args d ds hfat]
  · intro f hf hisf
    exact dirStep_upload_mem env go ctx st args d f hfat hf hisf

/-- A trivial driver environment used by witnesses: an empty filesystem and
base folder 0. -/
def envTriv : Env :=
  ⟨fun _ => [], fun _ => false, fun _ => false, 0⟩

/-- A trivial recursion continuation used by witnesses: returns an empty run
unchanged. -/
def goTriv : Args → Remote → RunResult :=
  fun a s => ⟨[], none, s, a⟩

/-- A loop context used by the C5 witness: both subdirectory names resolve by
reuse from the cached listing. -/
def ctxW : LoopCtx :=
  ⟨"c", "n", 5, [⟨1, "a", "dir", 5⟩, ⟨2, "y", "dir", 5⟩]⟩

/-- Witness for C5: the two-directory loop's trace is the head iteration's
block followed by the tail's. -/
theorem claim_C5_upload_barrier_witness :
    (processDirs envTriv goTriv ctxW ⟨[], 3⟩ ⟨"c", "n", some 5⟩ ["a", "y"]).events =
      (dirStep envTriv goTriv ctxW ⟨[], 3⟩ ⟨"c", "n", some 5⟩ "a").events ++
        (processDirs envTriv goTriv ctxW
          (dirStep envTriv goTriv ctxW ⟨[], 3⟩ ⟨"c", "n", some 5⟩ "a").remote
          (dirStep envTriv goTriv ctxW ⟨[], 3⟩ ⟨"c", "n", some 5⟩ "a").args
          ["y"]).events :=
  (claim_C5_upload_barrier envTriv goTriv ctxW ⟨[], 3⟩ ⟨"c", "n", some 5⟩ "a" ["y"]
    (by decide)).1

/-- C7: a folder-create call whose response status signals failure terminates
fatally (`Folder.create` returns the fatal error), and when the driver's
resolve-or-create path yields the sentinel id -1 the run stops at once with
the fatal message, its trace ending with that resolution — no upload and no
further folder creation is attempted (resolve-or-create itself performs no
upload). -/
theorem claim_C7_create_failure_fatal :
    (∀ resp : CreateResp, resp.status ≠ 1 →
      Folder.create resp = Except.error "Execution stopped. Cannot create folders") ∧
    (∀ (env : Env) (go : Args → Remote → RunResult) (ctx : LoopCtx)
        (st st2 : Remote) (args : Args) (d : String) (ds : List String)
        (evs : List Event),
      subfolderOf ctx.folder_data d = [] →
      create_folder_if_not_exists st d ctx.folder_pid = (-1, st2, evs) →
      processDirs env go ctx st args (d :: ds) =
        ⟨evs, some "Execution stopped. Folder not created", st2, args⟩) ∧
    (∀ (st : Remote) (name : String) (pid : Int) (p : String) (q : Int),
      Event.upload p q ∉ (create_folder_if_not_exists st name pid).2.2) := by
  refine ⟨?_, ?_, ?_⟩
  · intro resp h
    simp [Folder.create, h]
  · intro env go ctx st st2 args d ds evs hsub hcreate
    have hstep : dirStep env go ctx st args d =
        ⟨evs, some "Execution stopped. Folder not created", st2, args⟩ := by
      simp [dirStep, hsub, hcreate]
    simp [processDirs, hstep]
  · intro st name pid p q
    exact create_folder_no_upload st name pid p q

/-- Witness for C7: a failing-status create response yields the fatal error,
and a remote whose next assigned id is -1 makes the loop stop right after
the resolution of its first directory, with no upload events. -/
theorem claim_C7_create_failure_fatal_witness :
    Folder.create ⟨0, 9⟩ = Except.error "Execution stopped. Cannot create folders" ∧
    processDirs envTriv goTriv ⟨"c", "n", 5, []⟩ ⟨[], -1⟩ ⟨"c", "n", some 5⟩
        ["x", "y"] =
      ⟨[Event.search "x" 5, Event.create "x" 5],
        some "Execution stopped. Folder not created",
        ⟨[⟨-1, "x", "dir", 5⟩], 0⟩, ⟨"c", "n", some 5⟩⟩ :=
  ⟨claim_C7_create_failure_fatal.1 ⟨0, 9⟩ (by decide),
    claim_C7_create_failure_fatal.2.1 envTriv goTriv ⟨"c", "n", 5, []⟩ ⟨[], -1⟩
      ⟨[⟨-1, "x", "dir", 5⟩], 0⟩ ⟨"c", "n", some 5⟩ "x" ["y"]
      [Event.search "x" 5, Event.create "x" 5] rfl (by decide)⟩

/-- C8: the trace of `main` is the initial listing query, then — exactly when
the designated folder name differs from the sentinel "upload" — the flush of
every file directly under the root local directory into the resolved
top-level folder, and only then the subdirectory loop; when the name equals
"upload" the flush block is absent and the loop follows the listing query
directly. -/
theorem claim_C8_root_flush (env : Env) (args : Args) (st : Remote) (n : Nat) :
    (main env (n + 1) args st).events =
      Event.search "" (folderPidOf env args) ::
        ((if args.foldername != "upload" then
            (doit env (env.listdir args.dir) args.dir (folderPidOf env args)).1
          else []) ++
          (processDirs env (fun a s => main env n a s)
            ⟨args.dir, args.foldername, folderPidOf env args,
              searchList st "" (folderPidOf env args)⟩ st args
            ((env.listdir (args.dir ++ "/" ++ args.foldername)).filter
              (fun d => env.isdir (args.dir ++ "/" ++ args.foldername ++ "/" ++ d)))).events) ∧
    (args.foldername ≠ "upload" →
      ∀ f ∈ env.listdir args.dir, env.isfile (args.dir ++ "/" ++ f) = true →
        Event.upload (args.dir ++ "/" ++ f) (folderPidOf env args) ∈
          (doit env (env.listdir args.dir) args.dir (folderPidOf env args)).1) ∧
    (args.foldername = "upload" →
      (main env (n + 1) args st).events =
        Event.search "" (folderPidOf env args) ::
          (processDirs env (fun a s => main env n a s)
            ⟨args.dir, args.foldername, folderPidOf env args,
              searchList st "" (folderPidOf env args)⟩ st args
            ((env.listdir (args.dir ++ "/" ++ args.foldername)).filter
              (fun d => env.isdir (args.dir ++ "/" ++ args.foldername ++ "/" ++ d)))).events) := by
  refine ⟨rfl, ?_, ?_⟩
  · intro _ f hf hisf
    exact doit_upload_mem env _ _ _ f hf hisf
  · intro h
    simp [main, h]

/-- The filesystem of the C8 witness: one loose file `b` beside the folder
`target` under the root `root`. -/
def envC8 : Env where
  listdir := fun p =>
    if p == "root" then ["target", "b"]
    else []
  isfile := fun p => p == "root/b"
  isdir := fun p => p == "root/target"
  baseFolderCfg := 0

/-- Witness for C8: with foldername "target" (not "upload"), the loose file
`root/b` is uploaded into the top-level folder by the flush batch. -/
theorem claim_C8_root_flush_witness :
    Event.upload "root/b" 1 ∈
      (doit envC8 (envC8.listdir "root") "root"
        (folderPidOf envC8 ⟨"root", "target", some 1⟩)).1 :=
  (claim_C8_root_flush envC8 ⟨"root", "target", some 1⟩ ⟨[], 100⟩ 0).2.1
    (by decide) "b" (by decide) (by decide)

/-- The filesystem of the C1 scenario: `root/target/{a, b}` with `a` a
directory holding files `f1, f2` and `b` a file. -/
def envC1 : Env where
  listdir := fun p =>
    if p == "root" then ["target"]
    else if p == "root/target" then ["a", "b"]
    else if p == "root/target/a" then ["f1", "f2"]
    else []
  isfile := fun p =>
    p == "root/target/b" || p == "root/target/a/f1" || p == "root/target/a/f2"
  isdir := fun p => p == "root/target" || p == "root/target/a"
  baseFolderCfg := 0

/-- C1 counterexample: mirroring `target` under base folder P = 1 on the
tree `root/target/{a, b}` produces exactly the listing query, the
resolve-and-create of folder `a` under 1, and the uploads of `f1` and `f2`
into the created folder 100 — but no upload of `root/target/b` anywhere (in
particular not under P, be it pid 1 or pid 100).  The root flush only covers
files directly under `root`, and the subdirectory loop skips non-directory
entries of `root/target`, so the claim's "file b uploaded directly under P"
is false. -/
theorem claim_C1_counterexample :
    (main envC1 1 ⟨"root", "target", some 1⟩ ⟨[], 100⟩).events =
      [Event.search "" 1, Event.search "a" 1, Event.create "a" 1,
        Event.upload "root/target/a/f1" 100, Event.upload "root/target/a/f2" 100] ∧
    Event.upload "root/target/b" 1 ∉
      (main envC1 1 ⟨"root", "target", some 1⟩ ⟨[], 100⟩).events ∧
    Event.upload "root/target/b" 100 ∉
      (main envC1 1 ⟨"root", "target", some 1⟩ ⟨[], 100⟩).events := by
  refine ⟨rfl, ?_, ?_⟩ <;> decide

/-- C1 amended: mirroring `target` under base folder P results in a remote
folder named `a` resolved-or-created under P, and files `f1`, `f2` uploaded
into that folder; file `b` is NOT uploaded — files sitting directly inside
`target` are never uploaded, since the root flush covers only files directly
under `root` and the subdirectory loop recurses only into directories. -/
theorem claim_C1_amended :
    (main envC1 1 ⟨"root", "target", some 1⟩ ⟨[], 100⟩).events =
      [Event.search "" 1, Event.search "a" 1, Event.create "a" 1,
        Event.upload "root/target/a/f1" 100, Event.upload "root/target/a/f2" 100] ∧
    (main envC1 1 ⟨"root", "target", some 1⟩ ⟨[], 100⟩).remote.entries =
      [⟨100, "a", "dir", 1⟩] ∧
    (main envC1 1 ⟨"root", "target", some 1⟩ ⟨[], 100⟩).fatal = none := by
  exact ⟨rfl, rfl, rfl⟩

/-- The filesystem of the C6 scenario: `root/target/a` is a directory with a
single file `f`. -/
def envC6 : Env where
  listdir := fun p =>
    if p == "root" then ["target"]
    else if p == "root/target" then ["a"]
    else if p == "root/target/a" then ["f"]
    else []
  isfile := fun p => p == "root/target/a/f"
  isdir := fun p => p == "root/target" || p == "root/target/a"
  baseFolderCfg := 0

/-- C6 counterexample: the cached remote listing of parent 1 holds a single
FILE-typed entry named "a" with id 42; processing local subdirectory `a`,
the driver reuses id 42 (the upload goes to pid 42) and never calls
resolve-or-create — no search for "a" and no create occur.  This refutes the
claim that a cached entry's id is reused only when the entry is a
directory. -/
theorem claim_C6_counterexample :
    (main envC6 1 ⟨"root", "target", some 1⟩ ⟨[⟨42, "a", "file", 1⟩], 100⟩).events =
      [Event.search "" 1, Event.upload "root/target/a/f" 42] ∧
    Event.search "a" 1 ∉
      (main envC6 1 ⟨"root", "target", some 1⟩ ⟨[⟨42, "a", "file", 1⟩], 100⟩).events ∧
    Event.create "a" 1 ∉
      (main envC6 1 ⟨"root", "target", some 1⟩ ⟨[⟨42, "a", "file", 1⟩], 100⟩).events ∧
    (⟨42, "a", "file", 1⟩ : Entry).typ ≠ "dir" := by
  refine ⟨rfl, ?_, ?_, ?_⟩ <;> decide

/-- C6 amended: the driver reuses the id of the FIRST entry of the cached
remote listing whose name matches the subdirectory name, regardless of the
entry's type; it calls resolve-or-create (whose first event is the search)
exactly when no name-matching entry exists in the cached listing. -/
theorem claim_C6_amended (env : Env) (go : Args → Remote → RunResult)
    (ctx : LoopCtx) (st : Remote) (args : Args) (d : String) :
    (∀ e rest, ctx.folder_data.filter (fun x => x.name == d) = e :: rest →
      dirStep env go ctx st args d = afterResolve env go ctx st args d e.id []) ∧
    (ctx.folder_data.filter (fun x => x.name == d) = [] →
      Event.search d ctx.folder_pid ∈ (dirStep env go ctx st args d).events) := by
  constructor
  · intro e rest hfil
    have hsub : subfolderOf ctx.folder_data d = e :: rest := by
      rw [subfolderOf_eq_filter]
      exact hfil
    simp [dirStep, hsub]
  · intro hfil
    have hsub : subfolderOf ctx.folder_data d = [] := by
      rw [subfolderOf_eq_filter]
      exact hfil
    simp only [dirStep, hsub]
    split
    · simp
      exact create_folder_search_mem st d ctx.folder_pid
    · exact afterResolve_evs_mem env go ctx _ args d _ _ _
        (create_folder_search_mem st d ctx.folder_pid)

/-- Witness for C6 amended: a cached listing whose only entry is a file
named "a" still gets reused for subdirectory "a" (the step becomes the
post-resolution tail with pid 42 and no resolution events), and an empty
cached listing leads to the resolve-or-create search. -/
theorem claim_C6_amended_witness :
    dirStep envTriv goTriv ⟨"c", "n", 5, [⟨42, "a", "file", 5⟩]⟩ ⟨[], 100⟩
        ⟨"c", "n", some 5⟩ "a" =
      afterResolve envTriv goTriv ⟨"c", "n", 5, [⟨42, "a", "file", 5⟩]⟩ ⟨[], 100⟩
        ⟨"c", "n", some 5⟩ "a" 42 [] ∧
    Event.search "a" 5 ∈
      (dirStep envTriv goTriv ⟨"c", "n", 5, []⟩ ⟨[], 100⟩
        ⟨"c", "n", some 5⟩ "a").events :=
  ⟨(claim_C6_amended envTriv goTriv ⟨"c", "n", 5, [⟨42, "a", "file", 5⟩]⟩ ⟨[], 100⟩
      ⟨"c", "n", some 5⟩ "a").1 ⟨42, "a", "file", 5⟩ [] (by decide),
    (claim_C6_amended envTriv goTriv ⟨"c", "n", 5, []⟩ ⟨[], 100⟩
      ⟨"c", "n", some 5⟩ "a").2 rfl⟩

/-- The filesystem of the C10 scenario: `root/target/a/s/g` — subdirectory
`a` contains a nested directory `s` holding file `g`, so processing `a`
triggers the recursive call. -/
def envC10 : Env where
  listdir := fun p =>
    if p == "root" then ["target"]
    else if p == "root/target" then ["a"]
    else if p == "root/target/a" then ["s"]
    else if p == "root/target/a/s" then ["g"]
    else []
  isfile := fun p => p == "root/target/a/s/g"
  isdir := fun p =>
    p == "root/target" || p == "root/target/a" || p == "root/target/a/s"
  baseFolderCfg := 0

/-- C10: the recursive call receives the caller's own argument record with
`dir`, `foldername` and `basefolder` overwritten (in the embedding the
mutable object is threaded through and returned), so after the recursion the
caller — and the rest of its loop — holds the child's values: the run's
final argument record is `{dir := "root/target", foldername := "a",
basefolder := some 100}` as written for the recursive call, not the original
`{dir := "root", foldername := "target", basefolder := some 1}`; the trace
shows the recursion (creation of `s` under 100) did happen. -/
theorem claim_C10_argument_aliasing :
    (main envC10 2 ⟨"root", "target", some 1⟩ ⟨[], 100⟩).args =
      ⟨"root/target", "a", some 100⟩ ∧
    (main envC10 2 ⟨"root", "target", some 1⟩ ⟨[], 100⟩).args ≠
      ⟨"root", "target", some 1⟩ ∧
    (main envC10 2 ⟨"root", "target", some 1⟩ ⟨[], 100⟩).events =
      [Event.search "" 1, Event.search "a" 1, Event.create "a" 1,
        Event.search "" 100, Event.search "s" 100, Event.create "s" 100,
        Event.upload "root/target/a/s/g" 101] := by
  refine ⟨rfl, ?_, rfl⟩
  decide

end TwnUpload
